import Mathlib

/-!
Shallow embedding of the Profile Extraction & Knowledge Retrieval Engine
(`app/persona_analyzer.py`, `app/knowledge_base.py`, `app/ai_engine.py`,
`app/models.py`) together with proofs of the specified properties.

Conventions of the embedding:
* Python strings are Lean `String`; Python's substring test `a in b` is
  `substrB a b` (contiguous-sublist test on the character lists).
* Python `Optional[str]` fields are `Option String`; Python truthiness of
  such a field (`if s:`) is `optStrTruthy` (`none` and `some ""` are falsy).
* Python `Optional[List[str]]` fields default to the empty list, which Python
  code treats identically to `None`; they are embedded as plain `List String`.
* `datetime` metadata fields (`created_at`, `updated_at`, `timestamp`) play no
  role in any analyzed operation and are not modelled.
* Python's `list.sort(key=..., reverse=True)` is a stable descending sort; it
  is embedded as the stable insertion sort `sortScoredDesc`.
* Python's `list(set(a) | set(b))` produces the union with an unspecified
  order; it is embedded as the membership-faithful deterministic union
  `listUnion` (the source treats these fields as sets, order irrelevant).
-/

/-- Boolean contiguous-sublist test: `listInfix a b` holds iff `a` occurs
as a contiguous run inside `b`. -/
def listInfix [BEq α] : List α → List α → Bool
  | l, [] => l.isEmpty
  | l, h :: t => l.isPrefixOf (h :: t) || listInfix l t

/-- Python's substring containment `needle in hay`. -/
def substrB (needle hay : String) : Bool := listInfix needle.data hay.data

/-- Python's `str.lower()`, as characterwise lowering of the data. -/
def strLower (s : String) : String := ⟨s.data.map Char.toLower⟩

/-- Python's `str.startswith` / prefix test on strings. -/
def strStarts (p s : String) : Bool := List.isPrefixOf p.data s.data

/-- Python truthiness of an optional string: `None` and `""` are falsy. -/
def optStrTruthy : Option String → Bool
  | none => false
  | some s => !(s == "")

/-- Deterministic, membership-faithful embedding of Python's
`list(set(a) | set(b))`. -/
def listUnion (a b : List String) : List String :=
  a ++ b.filter (fun x => !(a.contains x))

/-- `app/models.py` `PersonaType` (a closed string-valued enumeration). -/
inductive PersonaType where
  | SIDE_WORKER
  | CHILD_RAISING_MOM
  | BUSINESS_OWNER
  | SELF_ACHIEVER
  | UNKNOWN
deriving DecidableEq

/-- The string value of each `PersonaType` member (`app/models.py`). -/
def PersonaType.value : PersonaType → String
  | .SIDE_WORKER => "副業ワーカー"
  | .CHILD_RAISING_MOM => "子育てママ"
  | .BUSINESS_OWNER => "ビジネスオーナー"
  | .SELF_ACHIEVER => "自己実現チャレンジャー"
  | .UNKNOWN => "未特定"

/-- `app/models.py` `ConversationStatus`. -/
inductive ConversationStatus where
  | INITIAL
  | HEARING
  | SEMINAR_INVITED
  | SEMINAR_APPLIED
  | SEMINAR_ATTENDED
  | CONSULTATION_INVITED
  | CONSULTATION_SCHEDULED
  | CONSULTATION_DONE
deriving DecidableEq

/-- The string value of each `ConversationStatus` member (`app/models.py`). -/
def ConversationStatus.value : ConversationStatus → String
  | .INITIAL => "友だち追加直後"
  | .HEARING => "ヒアリング中"
  | .SEMINAR_INVITED => "勉強会案内済み"
  | .SEMINAR_APPLIED => "勉強会申込済み"
  | .SEMINAR_ATTENDED => "勉強会参加済み"
  | .CONSULTATION_INVITED => "個別相談案内済み"
  | .CONSULTATION_SCHEDULED => "個別相談予約済み"
  | .CONSULTATION_DONE => "個別相談完了"

/-- `app/models.py` `Customer` (datetime metadata fields omitted). -/
structure Customer where
  user_id : String
  display_name : Option String := none
  occupation : Option String := none
  interest_genre : List String := []
  challenges : List String := []
  goals : Option String := none
  persona : PersonaType := PersonaType.UNKNOWN
  status : ConversationStatus := ConversationStatus.INITIAL
  source : Option String := none
deriving DecidableEq

/-- The fixed iteration order of the `PERSONA_KEYWORDS` table
(`app/persona_analyzer.py`, dict insertion order). -/
def personaTableOrder : List PersonaType :=
  [PersonaType.SIDE_WORKER, PersonaType.CHILD_RAISING_MOM,
   PersonaType.BUSINESS_OWNER, PersonaType.SELF_ACHIEVER]

/-- `PERSONA_KEYWORDS[p]["occupation"]` (`app/persona_analyzer.py`). -/
def personaOccupationKeywords : PersonaType → List String
  | .SIDE_WORKER => ["会社員", "サラリーマン", "OL", "正社員", "勤め"]
  | .CHILD_RAISING_MOM => ["主婦", "主夫", "ママ", "パート", "専業"]
  | .BUSINESS_OWNER => ["経営", "オーナー", "社長", "役員", "自営", "個人事業", "店舗"]
  | .SELF_ACHIEVER => []
  | .UNKNOWN => []

/-- `PERSONA_KEYWORDS[p]["keywords"]` (`app/persona_analyzer.py`). -/
def personaGenreKeywords : PersonaType → List String
  | .SIDE_WORKER => ["副業", "副収入", "仕事終わり", "通勤", "平日", "休日", "本業"]
  | .CHILD_RAISING_MOM => ["育児", "子ども", "子供", "赤ちゃん", "保育園", "幼稚園", "在宅", "家事"]
  | .BUSINESS_OWNER => ["集客", "売上", "ビジネス", "事業", "店", "サロン", "会社"]
  | .SELF_ACHIEVER => ["自由", "可能性", "挑戦", "夢", "好きなこと", "自分らしく", "新しい"]
  | .UNKNOWN => []

/-- `PERSONA_KEYWORDS[p]["challenges"]` (`app/persona_analyzer.py`). -/
def personaChallengeKeywords : PersonaType → List String
  | .SIDE_WORKER => ["時間が無い", "仕事と両立", "隙間時間"]
  | .CHILD_RAISING_MOM => ["育児と両立", "在宅で", "子どもがいて"]
  | .BUSINESS_OWNER => ["集客を増やしたい", "広告費", "新規顧客"]
  | .SELF_ACHIEVER => ["自分を変えたい", "何か始めたい", "可能性を広げたい"]
  | .UNKNOWN => []

/-- `GENRE_KEYWORDS` (`app/persona_analyzer.py`, dict insertion order). -/
def GENRE_KEYWORDS : List (String × List String) :=
  [("料理", ["料理", "レシピ", "お弁当", "食事", "クッキング", "ご飯"]),
   ("ダイエット", ["ダイエット", "痩せ", "体重", "ボディメイク", "筋トレ"]),
   ("美容", ["美容", "コスメ", "メイク", "スキンケア", "美肌"]),
   ("育児", ["育児", "子育て", "子ども", "ママ", "赤ちゃん"]),
   ("ビジネス", ["ビジネス", "仕事", "キャリア", "自己啓発", "投資"]),
   ("ハンドメイド", ["ハンドメイド", "手作り", "クラフト", "アクセサリー", "DIY"]),
   ("ライフスタイル", ["日常", "暮らし", "インテリア", "旅行", "カフェ"])]

/-- `CHALLENGE_KEYWORDS` (`app/persona_analyzer.py`). -/
def CHALLENGE_KEYWORDS : List String :=
  ["時間が無い", "時間がない", "忙しい",
   "自己流の限界", "伸び悩み", "やり方がわからない",
   "稼ぎたい", "収入", "収益化",
   "初心者", "未経験", "始めたい",
   "不安", "自信がない", "できるか",
   "在宅", "家で", "リモート",
   "副業", "本業以外",
   "両立", "育児", "仕事"]

/-- The ordered occupation pattern list of `PersonaAnalyzer._extract_occupation`;
each regex is a literal alternation, embedded as the list of its alternatives. -/
def occupationPatterns : List (List String × String) :=
  [(["会社員"], "会社員"),
   (["サラリーマン"], "会社員"),
   (["OL"], "会社員"),
   (["主婦", "専業主婦"], "主婦"),
   (["主夫"], "主夫"),
   (["パート", "アルバイト"], "パート・アルバイト"),
   (["経営者", "社長", "オーナー"], "経営者"),
   (["役員"], "経営者・役員"),
   (["自営業", "個人事業"], "自営業"),
   (["フリーランス"], "フリーランス"),
   (["学生"], "学生")]

/-- `PersonaAnalyzer._extract_occupation`: first matching pattern wins
(`re.search` against the original, non-lowered message). -/
def extractOccupation (message : String) : Option String :=
  (occupationPatterns.find? (fun p => p.1.any (fun alt => substrB alt message))).map Prod.snd

/-- `PersonaAnalyzer._extract_genres`: a genre is found when any of its
keywords occurs in the message or the lowered message. -/
def extractGenres (message : String) : List String :=
  (GENRE_KEYWORDS.filter
    (fun g => g.2.any (fun k => substrB k message || substrB k (strLower message)))).map Prod.fst

/-- `PersonaAnalyzer._extract_challenges`: every challenge phrase that occurs
verbatim in the message. -/
def extractChallenges (message : String) : List String :=
  CHALLENGE_KEYWORDS.filter (fun c => substrB c message)

/-- The occupation contribution of `PersonaAnalyzer._estimate_persona`:
+5 (with `break`, hence at most once) when the occupation field is truthy and
contains one of the persona's occupation keywords. -/
def personaScoreOcc (c : Customer) (p : PersonaType) : Nat :=
  if optStrTruthy c.occupation &&
      (personaOccupationKeywords p).any (fun k => substrB k (c.occupation.getD "")) then 5 else 0

/-- The genre contribution of `PersonaAnalyzer._estimate_persona`:
+2 per persona keyword occurring in the space-joined genre list (loop guarded
by the Python truthiness of `customer.interest_genre`). -/
def personaScoreGenre (c : Customer) (p : PersonaType) : Nat :=
  if !c.interest_genre.isEmpty then
    2 * (personaGenreKeywords p).countP
      (fun k => substrB k (String.intercalate " " c.interest_genre))
  else 0

/-- The challenge contribution of `PersonaAnalyzer._estimate_persona`:
+3 per persona challenge phrase occurring in the space-joined challenge list. -/
def personaScoreChallenge (c : Customer) (p : PersonaType) : Nat :=
  if !c.challenges.isEmpty then
    3 * (personaChallengeKeywords p).countP
      (fun k => substrB k (String.intercalate " " c.challenges))
  else 0

/-- The total score `scores[p]` computed by `PersonaAnalyzer._estimate_persona`. -/
def personaScore (c : Customer) (p : PersonaType) : Nat :=
  personaScoreOcc c p + personaScoreGenre c p + personaScoreChallenge c p

/-- `max(scores.values())` in `PersonaAnalyzer._estimate_persona`. -/
def maxPersonaScore (c : Customer) : Nat :=
  (personaTableOrder.map (personaScore c)).foldl max 0

/-- `PersonaAnalyzer._estimate_persona`: the first persona in table order whose
score equals the maximum, when the maximum is positive; `UNKNOWN` otherwise. -/
def estimatePersona (c : Customer) : PersonaType :=
  if 0 < maxPersonaScore c then
    match personaTableOrder.find? (fun p => personaScore c p == maxPersonaScore c) with
    | some p => p
    | none => PersonaType.UNKNOWN
  else PersonaType.UNKNOWN

/-- Occupation step of `PersonaAnalyzer.analyze_message`: assign only when an
occupation was extracted (and truthy) and the current one is falsy. -/
def applyOccupation (message : String) (c : Customer) : Customer :=
  match extractOccupation message with
  | some occ =>
      if !(occ == "") && !(optStrTruthy c.occupation) then
        { c with occupation := some occ }
      else c
  | none => c

/-- Genre step of `PersonaAnalyzer.analyze_message`: union the extracted
genres into the profile when any were found. -/
def applyGenres (message : String) (c : Customer) : Customer :=
  match extractGenres message with
  | [] => c
  | gs => { c with interest_genre := listUnion c.interest_genre gs }

/-- Challenge step of `PersonaAnalyzer.analyze_message`. -/
def applyChallenges (message : String) (c : Customer) : Customer :=
  match extractChallenges message with
  | [] => c
  | cs => { c with challenges := listUnion c.challenges cs }

/-- Persona step of `PersonaAnalyzer.analyze_message`: estimate only while the
persona is still `UNKNOWN`. -/
def applyPersona (c : Customer) : Customer :=
  if c.persona = PersonaType.UNKNOWN then { c with persona := estimatePersona c } else c

/-- The attribute-accretion part (steps 1-3) of `PersonaAnalyzer.analyze_message`. -/
def accreteProfile (message : String) (c : Customer) : Customer :=
  applyChallenges message (applyGenres message (applyOccupation message c))

/-- `PersonaAnalyzer.analyze_message` (the spec's `extract`). -/
def analyzeMessage (message : String) (c : Customer) : Customer :=
  applyPersona (accreteProfile message c)

/-- `app/models.py` `SuccessCase` (a testimonial record). -/
structure SuccessCase where
  id : String
  title : String
  customer_profile : String
  genre : String
  initial_situation : String
  achievement : String
  period : String
  success_points : String
  related_personas : List String := []
  related_challenges : List String := []
  keywords : List String := []
deriving DecidableEq

/-- `app/models.py` `FAQ`. -/
structure FAQ where
  id : String
  category : String
  question : String
  answer : String
  related_personas : List String := []
  keywords : List String := []
deriving DecidableEq

/-- The in-memory state of `app/knowledge_base.py` `KnowledgeBase` after load
(the two immutable collections, in load order). -/
structure KnowledgeBase where
  success_cases : List SuccessCase
  faqs : List FAQ

/-- The per-record score computed inside `KnowledgeBase.search_success_cases`:
persona membership +3, each supplied challenge that is a substring of some
related challenge +2, case-insensitive genre substring +2, each supplied
keyword present verbatim in the record keywords +1. -/
def scoreCase (persona : Option String) (challenges : List String)
    (genre : Option String) (keywords : List String) (c : SuccessCase) : Nat :=
  (match persona with
   | some p => if !(p == "") && c.related_personas.contains p then 3 else 0
   | none => 0)
  + 2 * challenges.countP (fun ch => c.related_challenges.any (fun rc => substrB ch rc))
  + (match genre with
     | some g => if !(g == "") && substrB (strLower g) (strLower c.genre) then 2 else 0
     | none => 0)
  + keywords.countP (fun k => c.keywords.contains k)

/-- The per-record score computed inside `KnowledgeBase.search_faqs`:
category substring +2; per keyword: substring of question +3, membership in
the record keyword list +2, substring of answer +1, accumulating. -/
def scoreFaq (keywords : List String) (category : Option String) (f : FAQ) : Nat :=
  (match category with
   | some cat => if !(cat == "") && substrB cat f.category then 2 else 0
   | none => 0)
  + (keywords.map (fun k =>
      (if substrB k f.question then 3 else 0)
      + (if f.keywords.contains k then 2 else 0)
      + (if substrB k f.answer then 1 else 0))).sum

/-- Stable insertion into a descending scored list: the new element goes after
every element of strictly greater score and before every element of smaller or
equal score (so earlier-listed elements win ties). -/
def insertScored (x : Nat × α) : List (Nat × α) → List (Nat × α)
  | [] => [x]
  | y :: ys => if x.1 < y.1 then y :: insertScored x ys else x :: y :: ys

/-- Stable descending sort on (score, record) pairs; the embedding of Python's
stable `results.sort(key=lambda x: x[0], reverse=True)`. -/
def sortScoredDesc : List (Nat × α) → List (Nat × α)
  | [] => []
  | x :: xs => insertScored x (sortScoredDesc xs)

/-- The common ranking pipeline of both search functions: score every record,
keep positive scores, stable-sort descending, truncate, drop the scores. -/
def rankBy (score : α → Nat) (l : List α) (limit : Nat) : List α :=
  ((sortScoredDesc ((l.map (fun a => (score a, a))).filter
      (fun p => decide (0 < p.1)))).take limit).map Prod.snd

/-- `KnowledgeBase.search_success_cases`: records in `exclude_ids` are skipped
before scoring; the rest go through the ranking pipeline. -/
def searchSuccessCases (kb : KnowledgeBase) (persona : Option String)
    (challenges : List String) (genre : Option String) (keywords : List String)
    (exclude_ids : List String) (limit : Nat) : List SuccessCase :=
  rankBy (scoreCase persona challenges genre keywords)
    (kb.success_cases.filter (fun c => !(exclude_ids.contains c.id))) limit

/-- `KnowledgeBase.search_faqs`. -/
def searchFaqs (kb : KnowledgeBase) (keywords : List String)
    (category : Option String) (limit : Nat) : List FAQ :=
  rankBy (scoreFaq keywords category) kb.faqs limit

/-- `app/models.py` `Message` (timestamp omitted). -/
structure Message where
  id : Option String := none
  user_id : String
  role : String
  content : String
deriving DecidableEq

/-- `app/models.py` `ConversationContext`. -/
structure ConversationContext where
  customer : Customer
  messages : List Message := []
  current_topic : Option String := none
  mentioned_cases : List String := []

/-- The `customer_info` line list built by `AIEngine._build_context_prompt`:
name, occupation, genre, challenge, and goal lines only when the field is
truthy; the persona line only when the persona value differs from the
`UNKNOWN` value; the status line always. -/
def buildCustomerInfo (c : Customer) : List String :=
  (if optStrTruthy c.display_name then ["お名前: " ++ (c.display_name.getD "" ++ "さん")] else [])
  ++ (if optStrTruthy c.occupation then ["職業: " ++ c.occupation.getD ""] else [])
  ++ (if !c.interest_genre.isEmpty then
        ["興味ジャンル: " ++ String.intercalate ", " c.interest_genre] else [])
  ++ (if !c.challenges.isEmpty then
        ["課題: " ++ String.intercalate ", " c.challenges] else [])
  ++ (if optStrTruthy c.goals then ["目標: " ++ c.goals.getD ""] else [])
  ++ (if !(c.persona.value == "未特定") then ["推定ペルソナ: " ++ c.persona.value] else [])
  ++ ["ステータス: " ++ c.status.value]

/-- `AIEngine._build_context_prompt`: the context block around the joined
`customer_info` lines. -/
def buildContextPrompt (ctx : ConversationContext) : String :=
  "\n## 現在の顧客情報\n"
  ++ (if !(buildCustomerInfo ctx.customer).isEmpty then
        String.intercalate "\n" (buildCustomerInfo ctx.customer)
      else "（まだヒアリング前です）")
  ++ "\n\n## 対話の指針\n- この顧客に合わせた対話を心がけてください\n- まだ情報が少ない場合は、自然な形でヒアリングを進めてください\n- 既に言及した成功事例: "
  ++ (if !ctx.mentioned_cases.isEmpty then String.intercalate ", " ctx.mentioned_cases
      else "なし")
  ++ "\n"

/-- The Python slice `l[-n:]`: the suffix holding the most recent `n` items. -/
def pySliceLast (n : Nat) (l : List α) : List α := l.drop (l.length - n)

/-- The combined system prompt assembled in `AIEngine._build_messages`. -/
def buildFullSystemPrompt (systemPrompt : String) (ctx : ConversationContext)
    (knowledge : String) : String :=
  systemPrompt ++ "\n\n" ++ buildContextPrompt ctx
  ++ (if !(knowledge == "") then "\n\n" ++ knowledge else "")

/-- `AIEngine._build_messages`: system message, then the last 10 history
messages in order, then the current user message (each as a role/content pair). -/
def buildMessages (systemPrompt : String) (ctx : ConversationContext)
    (userMessage knowledge : String) : List (String × String) :=
  ("system", buildFullSystemPrompt systemPrompt ctx knowledge)
  :: ((pySliceLast 10 ctx.messages).map (fun m => (m.role, m.content))
      ++ [("user", userMessage)])

/-! ### Properties of the stable descending sort and the ranking pipeline -/

lemma mem_insertScored (x y : Nat × α) (l : List (Nat × α)) :
    y ∈ insertScored x l ↔ y = x ∨ y ∈ l := by
  induction l with
  | nil => simp [insertScored]
  | cons z zs ih =>
      unfold insertScored
      by_cases h : x.1 < z.1
      · rw [if_pos h]
        simp only [List.mem_cons, ih]
        tauto
      · rw [if_neg h]
        simp [List.mem_cons]

lemma mem_sortScoredDesc (y : Nat × α) (l : List (Nat × α)) :
    y ∈ sortScoredDesc l ↔ y ∈ l := by
  induction l with
  | nil => simp [sortScoredDesc]
  | cons x xs ih => simp [sortScoredDesc, mem_insertScored, ih]

lemma pairwise_insertScored (x : Nat × α) (l : List (Nat × α))
    (h : l.Pairwise (fun a b => b.1 ≤ a.1)) :
    (insertScored x l).Pairwise (fun a b => b.1 ≤ a.1) := by
  induction l with
  | nil => simp [insertScored]
  | cons z zs ih =>
      rcases List.pairwise_cons.mp h with ⟨hz, hzs⟩
      unfold insertScored
      by_cases hx : x.1 < z.1
      · rw [if_pos hx]
        refine List.pairwise_cons.mpr ⟨?_, ih hzs⟩
        intro b hb
        rcases (mem_insertScored x b zs).mp hb with rfl | hbz
        · omega
        · exact hz b hbz
      · rw [if_neg hx]
        refine List.pairwise_cons.mpr ⟨?_, h⟩
        intro b hb
        rcases List.mem_cons.mp hb with rfl | hbz
        · omega
        · have := hz b hbz; omega

lemma pairwise_sortScoredDesc (l : List (Nat × α)) :
    (sortScoredDesc l).Pairwise (fun a b => b.1 ≤ a.1) := by
  induction l with
  | nil => simp [sortScoredDesc]
  | cons x xs ih => exact pairwise_insertScored x _ ih

lemma filter_insertScored (x : Nat × α) (l : List (Nat × α)) (s : Nat) :
    (insertScored x l).filter (fun p => p.1 == s) =
      if (x.1 == s) = true then x :: l.filter (fun p => p.1 == s)
      else l.filter (fun p => p.1 == s) := by
  induction l with
  | nil =>
      unfold insertScored
      rw [List.filter_cons]
  | cons z zs ih =>
      unfold insertScored
      by_cases hx : x.1 < z.1
      · rw [if_pos hx, List.filter_cons, List.filter_cons, ih]
        by_cases hz : (z.1 == s) = true
        · by_cases hxs : (x.1 == s) = true
          · have h1 : z.1 = s := by simpa using hz
            have h2 : x.1 = s := by simpa using hxs
            omega
          · simp [hz, hxs]
        · simp [hz]
      · rw [if_neg hx, List.filter_cons]

lemma filter_sortScoredDesc (l : List (Nat × α)) (s : Nat) :
    (sortScoredDesc l).filter (fun p => p.1 == s) = l.filter (fun p => p.1 == s) := by
  induction l with
  | nil => rfl
  | cons x xs ih =>
      unfold sortScoredDesc
      rw [filter_insertScored, List.filter_cons]
      by_cases hxs : (x.1 == s) = true
      · rw [if_pos hxs, if_pos hxs, ih]
      · rw [if_neg hxs, if_neg hxs, ih]

lemma takeIsPre (l : List α) (n : Nat) : l.take n <+: l :=
  ⟨l.drop n, List.take_append_drop n l⟩

lemma mem_scoredList (score : α → Nat) (l : List α) (p : Nat × α)
    (hp : p ∈ (l.map (fun a => (score a, a))).filter (fun q => decide (0 < q.1))) :
    p.1 = score p.2 ∧ 0 < p.1 ∧ p.2 ∈ l := by
  rcases List.mem_filter.mp hp with ⟨hmem, hpos⟩
  rcases List.mem_map.mp hmem with ⟨a, ha, rfl⟩
  exact ⟨rfl, by simpa using hpos, ha⟩

lemma mem_rankBy (score : α → Nat) (l : List α) (limit : Nat) (r : α)
    (hr : r ∈ rankBy score l limit) : r ∈ l ∧ 0 < score r := by
  unfold rankBy at hr
  rcases List.mem_map.mp hr with ⟨p, hp, rfl⟩
  have hp' := List.mem_of_mem_take hp
  have hp'' := (mem_sortScoredDesc p _).mp hp'
  have h3 := mem_scoredList score l p hp''
  exact ⟨h3.2.2, by rw [← h3.1]; exact h3.2.1⟩

lemma rankBy_all_pos (score : α → Nat) (l : List α) (limit : Nat) :
    (rankBy score l limit).all (fun r => decide (0 < score r)) = true := by
  rw [List.all_eq_true]
  intro r hr
  simpa using (mem_rankBy score l limit r hr).2

lemma rankBy_length (score : α → Nat) (l : List α) (limit : Nat) :
    (rankBy score l limit).length ≤ limit := by
  unfold rankBy
  rw [List.length_map, List.length_take]
  omega

lemma rankBy_sorted (score : α → Nat) (l : List α) (limit : Nat) :
    (rankBy score l limit).Pairwise (fun a b => score b ≤ score a) := by
  unfold rankBy
  rw [List.pairwise_map]
  have hs := pairwise_sortScoredDesc
    ((l.map (fun a => (score a, a))).filter (fun p => decide (0 < p.1)))
  have htake := hs.sublist (List.take_sublist limit _)
  refine htake.imp_of_mem ?_
  intro a b ha hb hab
  have h1 := (mem_scoredList score l a ((mem_sortScoredDesc a _).mp (List.mem_of_mem_take ha))).1
  have h2 := (mem_scoredList score l b ((mem_sortScoredDesc b _).mp (List.mem_of_mem_take hb))).1
  rw [← h1, ← h2]
  exact hab

lemma scored_filter_snd (score : α → Nat) (l : List α) (s : Nat) :
    (((l.map (fun a => (score a, a))).filter (fun p => decide (0 < p.1))).filter
        (fun p => p.1 == s)).map Prod.snd
      = (l.filter (fun a => decide (0 < score a))).filter (fun a => score a == s) := by
  induction l with
  | nil => rfl
  | cons a t ih =>
      by_cases h1 : (0 < score a)
      · by_cases h2 : (score a == s) = true
        · simp only [List.map_cons, List.filter_cons]
          simp [h1, h2] at ih ⊢
          exact ih
        · simp only [List.map_cons, List.filter_cons]
          simp [h1, h2] at ih ⊢
          exact ih
      · simp only [List.map_cons, List.filter_cons]
        simp [h1] at ih ⊢
        exact ih

lemma rankBy_stable (score : α → Nat) (l : List α) (limit : Nat) (s : Nat) :
    (rankBy score l limit).filter (fun a => score a == s) <+:
      (l.filter (fun a => decide (0 < score a))).filter (fun a => score a == s) := by
  unfold rankBy
  rw [List.filter_map]
  have hcong :
      (((sortScoredDesc ((l.map (fun a => (score a, a))).filter
          (fun p => decide (0 < p.1)))).take limit).filter
        ((fun a => score a == s) ∘ Prod.snd)) =
      (((sortScoredDesc ((l.map (fun a => (score a, a))).filter
          (fun p => decide (0 < p.1)))).take limit).filter (fun p => p.1 == s)) := by
    refine List.filter_congr ?_
    intro p hp
    have h1 := (mem_scoredList score l p
      ((mem_sortScoredDesc p _).mp (List.mem_of_mem_take hp))).1
    simp only [Function.comp]
    rw [h1]
  rw [hcong]
  have hpre :
      (((sortScoredDesc ((l.map (fun a => (score a, a))).filter
          (fun p => decide (0 < p.1)))).take limit).filter (fun p => p.1 == s)) <+:
      ((sortScoredDesc ((l.map (fun a => (score a, a))).filter
          (fun p => decide (0 < p.1)))).filter (fun p => p.1 == s)) :=
    (takeIsPre _ limit).filter _
  refine List.IsPrefix.trans (hpre.map Prod.snd) ?_
  rw [filter_sortScoredDesc, scored_filter_snd]

/-- C4: for every corpus, query and limit, the results of both search
functions contain only records of strictly positive score, are sorted by
descending score, with equal-score records retaining the Knowledge Store's
load order (every equal-score slice of the result is a prefix of the
corresponding slice of the corpus in load order), and hold at most `limit`
elements. Repeated calls with identical inputs agree because both functions
are pure: the output is a function of the arguments alone. -/
theorem ranking_contract (kb : KnowledgeBase) (persona genre category : Option String)
    (challenges keywords fkeywords exclude_ids : List String) (limitT limitF : Nat) :
    ((searchSuccessCases kb persona challenges genre keywords exclude_ids limitT).all
        (fun r => decide (0 < scoreCase persona challenges genre keywords r)) = true ∧
      (searchSuccessCases kb persona challenges genre keywords exclude_ids limitT).Pairwise
        (fun a b => scoreCase persona challenges genre keywords b ≤
          scoreCase persona challenges genre keywords a) ∧
      (searchSuccessCases kb persona challenges genre keywords exclude_ids limitT).length
        ≤ limitT ∧
      (∀ s : Nat,
        (searchSuccessCases kb persona challenges genre keywords exclude_ids limitT).filter
            (fun r => scoreCase persona challenges genre keywords r == s) <+:
          ((kb.success_cases.filter (fun r => !(exclude_ids.contains r.id))).filter
              (fun r => decide (0 < scoreCase persona challenges genre keywords r))).filter
            (fun r => scoreCase persona challenges genre keywords r == s))) ∧
    ((searchFaqs kb fkeywords category limitF).all
        (fun r => decide (0 < scoreFaq fkeywords category r)) = true ∧
      (searchFaqs kb fkeywords category limitF).Pairwise
        (fun a b => scoreFaq fkeywords category b ≤ scoreFaq fkeywords category a) ∧
      (searchFaqs kb fkeywords category limitF).length ≤ limitF ∧
      (∀ s : Nat,
        (searchFaqs kb fkeywords category limitF).filter
            (fun r => scoreFaq fkeywords category r == s) <+:
          (kb.faqs.filter (fun r => decide (0 < scoreFaq fkeywords category r))).filter
            (fun r => scoreFaq fkeywords category r == s))) := by
  constructor
  · exact ⟨rankBy_all_pos _ _ _, rankBy_sorted _ _ _, rankBy_length _ _ _,
      fun s => rankBy_stable _ _ _ s⟩
  · exact ⟨rankBy_all_pos _ _ _, rankBy_sorted _ _ _, rankBy_length _ _ _,
      fun s => rankBy_stable _ _ _ s⟩

/-- Witness for C4 at a concrete two-record corpus and concrete queries. -/
theorem ranking_contract_witness :
    (searchSuccessCases
        (KnowledgeBase.mk
          [{ id := "case_001", title := "t1", customer_profile := "p1", genre := "料理",
             initial_situation := "s1", achievement := "a1", period := "半年",
             success_points := "sp1", related_personas := ["子育てママ"],
             related_challenges := ["時間が無い"], keywords := ["在宅"] },
           { id := "case_002", title := "t2", customer_profile := "p2", genre := "ビジネス",
             initial_situation := "s2", achievement := "a2", period := "半年",
             success_points := "sp2", related_personas := ["副業ワーカー"],
             related_challenges := ["自己流の限界"], keywords := ["副業"] }]
          [{ id := "faq_002", category := "料金・支払い", question := "料金はいくらですか？",
             answer := "分割払いも可能です。", related_personas := ["全て"],
             keywords := ["料金", "価格"] }])
        (some "子育てママ") ["時間が無い"] none [] ["case_002"] 2).length ≤ 2 ∧
    (searchFaqs
        (KnowledgeBase.mk
          [{ id := "case_001", title := "t1", customer_profile := "p1", genre := "料理",
             initial_situation := "s1", achievement := "a1", period := "半年",
             success_points := "sp1", related_personas := ["子育てママ"],
             related_challenges := ["時間が無い"], keywords := ["在宅"] },
           { id := "case_002", title := "t2", customer_profile := "p2", genre := "ビジネス",
             initial_situation := "s2", achievement := "a2", period := "半年",
             success_points := "sp2", related_personas := ["副業ワーカー"],
             related_challenges := ["自己流の限界"], keywords := ["副業"] }]
          [{ id := "faq_002", category := "料金・支払い", question := "料金はいくらですか？",
             answer := "分割払いも可能です。", related_personas := ["全て"],
             keywords := ["料金", "価格"] }])
        ["料金"] none 2).length ≤ 2 := by
  have h := ranking_contract
    (KnowledgeBase.mk
      [{ id := "case_001", title := "t1", customer_profile := "p1", genre := "料理",
         initial_situation := "s1", achievement := "a1", period := "半年",
         success_points := "sp1", related_personas := ["子育てママ"],
         related_challenges := ["時間が無い"], keywords := ["在宅"] },
       { id := "case_002", title := "t2", customer_profile := "p2", genre := "ビジネス",
         initial_situation := "s2", achievement := "a2", period := "半年",
         success_points := "sp2", related_personas := ["副業ワーカー"],
         related_challenges := ["自己流の限界"], keywords := ["副業"] }]
      [{ id := "faq_002", category := "料金・支払い", question := "料金はいくらですか？",
         answer := "分割払いも可能です。", related_personas := ["全て"],
         keywords := ["料金", "価格"] }])
    (some "子育てママ") none none ["時間が無い"] [] ["料金"] ["case_002"] 2 2
  exact ⟨h.1.2.2.1, h.2.2.2.1⟩

/-- C5: no record whose identifier is in `exclude_ids` ever appears in the
ranked testimonial result; excluded records are dropped before scoring. -/
theorem ranked_excludes_excluded (kb : KnowledgeBase) (persona genre : Option String)
    (challenges keywords exclude_ids : List String) (limit : Nat) :
    (searchSuccessCases kb persona challenges genre keywords exclude_ids limit).all
      (fun r => !(exclude_ids.contains r.id)) = true := by
  rw [List.all_eq_true]
  intro r hr
  have hmem := (mem_rankBy _ _ _ r hr).1
  have := List.mem_filter.mp hmem
  simpa using this.2

/-! ### Field-preservation facts about the extraction steps -/

lemma applyOccupation_persona (m : String) (c : Customer) :
    (applyOccupation m c).persona = c.persona := by
  unfold applyOccupation
  cases extractOccupation m
  · rfl
  · dsimp only
    split <;> rfl

lemma applyOccupation_interest (m : String) (c : Customer) :
    (applyOccupation m c).interest_genre = c.interest_genre := by
  unfold applyOccupation
  cases extractOccupation m
  · rfl
  · dsimp only
    split <;> rfl

lemma applyOccupation_challenges (m : String) (c : Customer) :
    (applyOccupation m c).challenges = c.challenges := by
  unfold applyOccupation
  cases extractOccupation m
  · rfl
  · dsimp only
    split <;> rfl

lemma applyGenres_persona (m : String) (c : Customer) :
    (applyGenres m c).persona = c.persona := by
  unfold applyGenres
  cases extractGenres m <;> rfl

lemma applyGenres_occupation (m : String) (c : Customer) :
    (applyGenres m c).occupation = c.occupation := by
  unfold applyGenres
  cases extractGenres m <;> rfl

lemma applyGenres_challenges (m : String) (c : Customer) :
    (applyGenres m c).challenges = c.challenges := by
  unfold applyGenres
  cases extractGenres m <;> rfl

lemma applyChallenges_persona (m : String) (c : Customer) :
    (applyChallenges m c).persona = c.persona := by
  unfold applyChallenges
  cases extractChallenges m <;> rfl

lemma applyChallenges_occupation (m : String) (c : Customer) :
    (applyChallenges m c).occupation = c.occupation := by
  unfold applyChallenges
  cases extractChallenges m <;> rfl

lemma applyChallenges_interest (m : String) (c : Customer) :
    (applyChallenges m c).interest_genre = c.interest_genre := by
  unfold applyChallenges
  cases extractChallenges m <;> rfl

lemma applyPersona_occupation (c : Customer) :
    (applyPersona c).occupation = c.occupation := by
  unfold applyPersona
  split <;> rfl

lemma applyPersona_interest (c : Customer) :
    (applyPersona c).interest_genre = c.interest_genre := by
  unfold applyPersona
  split <;> rfl

lemma applyPersona_challenges (c : Customer) :
    (applyPersona c).challenges = c.challenges := by
  unfold applyPersona
  split <;> rfl

lemma accreteProfile_persona (m : String) (c : Customer) :
    (accreteProfile m c).persona = c.persona := by
  unfold accreteProfile
  rw [applyChallenges_persona, applyGenres_persona, applyOccupation_persona]

/-- C2: once the persona is determined, no `extract` call changes it,
regardless of utterance content. -/
theorem persona_stability_extract (m : String) (c : Customer)
    (h : c.persona ≠ PersonaType.UNKNOWN) :
    (analyzeMessage m c).persona = c.persona := by
  have hacc := accreteProfile_persona m c
  unfold analyzeMessage applyPersona
  split
  · rename_i hcond
    rw [hacc] at hcond
    exact absurd hcond h
  · exact hacc

/-- Witness for C2: a profile already classified as a side worker keeps its
persona through a further extraction. -/
theorem persona_stability_extract_witness :
    ({ user_id := "U", persona := PersonaType.SIDE_WORKER } : Customer).persona
        ≠ PersonaType.UNKNOWN ∧
    (analyzeMessage "主婦です。育児と両立したい"
        { user_id := "U", persona := PersonaType.SIDE_WORKER }).persona =
      ({ user_id := "U", persona := PersonaType.SIDE_WORKER } : Customer).persona :=
  ⟨by decide, persona_stability_extract "主婦です。育児と両立したい"
      { user_id := "U", persona := PersonaType.SIDE_WORKER } (by decide)⟩

/-- C3: a single `extract` call never removes an element from the
interest-genre set or the challenge set (so over any utterance sequence both
sets grow monotonically). -/
theorem genre_challenge_monotonic (m : String) (c : Customer) (x : String) :
    (x ∈ c.interest_genre → x ∈ (analyzeMessage m c).interest_genre) ∧
    (x ∈ c.challenges → x ∈ (analyzeMessage m c).challenges) := by
  constructor
  · intro hx
    unfold analyzeMessage accreteProfile
    rw [applyPersona_interest, applyChallenges_interest]
    unfold applyGenres
    cases extractGenres m
    · rw [applyOccupation_interest]
      exact hx
    · dsimp only
      unfold listUnion
      rw [applyOccupation_interest]
      exact List.mem_append_left _ hx
  · intro hx
    unfold analyzeMessage accreteProfile
    rw [applyPersona_challenges]
    unfold applyChallenges
    cases extractChallenges m
    · rw [applyGenres_challenges, applyOccupation_challenges]
      exact hx
    · dsimp only
      unfold listUnion
      rw [applyGenres_challenges, applyOccupation_challenges]
      exact List.mem_append_left _ hx

/-- Concrete profile used by the C3 witness. -/
def monotonicityWitnessCustomer : Customer :=
  { user_id := "U", interest_genre := ["料理"], challenges := ["忙しい"] }

/-- Witness for C3: existing genre and challenge entries survive an
extraction that adds new ones. -/
theorem genre_challenge_monotonic_witness :
    "料理" ∈ monotonicityWitnessCustomer.interest_genre ∧
    "忙しい" ∈ monotonicityWitnessCustomer.challenges ∧
    "料理" ∈ (analyzeMessage "ダイエットに興味、時間が無い"
        monotonicityWitnessCustomer).interest_genre ∧
    "忙しい" ∈ (analyzeMessage "ダイエットに興味、時間が無い"
        monotonicityWitnessCustomer).challenges := by
  refine ⟨by decide, by decide, ?_, ?_⟩
  · exact (genre_challenge_monotonic "ダイエットに興味、時間が無い"
      monotonicityWitnessCustomer "料理").1 (by decide)
  · exact (genre_challenge_monotonic "ダイエットに興味、時間が無い"
      monotonicityWitnessCustomer "忙しい").2 (by decide)

lemma analyzeMessage_occupation (m : String) (c : Customer) :
    (analyzeMessage m c).occupation = (applyOccupation m c).occupation := by
  unfold analyzeMessage accreteProfile
  rw [applyPersona_occupation, applyChallenges_occupation, applyGenres_occupation]

lemma applyOccupation_idem_on (m : String) (c c' : Customer)
    (h : c'.occupation = (applyOccupation m c).occupation) :
    (applyOccupation m c').occupation = c'.occupation := by
  cases hE : extractOccupation m with
  | none =>
      unfold applyOccupation
      rw [hE]
  | some occ =>
      unfold applyOccupation at h ⊢
      rw [hE] at h ⊢
      dsimp only at h ⊢
      by_cases ho : (occ == "") = true
      · simp [ho]
      · by_cases hc : optStrTruthy c.occupation = true
        · simp [hc] at h
          have hc' : optStrTruthy c'.occupation = true := by rw [h]; exact hc
          simp [hc']
        · simp [ho, hc] at h
          split
          · exact h.symm
          · rfl

/-- C7: applying `extract` twice with the same utterance yields the same
occupation as applying it once (first-write-wins; re-application is a no-op
on the occupation field). -/
theorem occupation_idempotent (m : String) (c : Customer) :
    (analyzeMessage m (analyzeMessage m c)).occupation = (analyzeMessage m c).occupation := by
  rw [analyzeMessage_occupation m (analyzeMessage m c)]
  exact applyOccupation_idem_on m c _ (analyzeMessage_occupation m c)

/-! ### Persona inference against the specified score formula -/

/-- The persona score formula exactly as the specification states it
(claim-side definition, to be compared with the code-side `personaScore`):
+5 if the profile's occupation string contains any occupation-indicator term,
+2 for each persona-keyword term found as a substring of the joined genre
labels, +3 for each persona challenge phrase found as a substring of the
joined challenge strings. -/
def specPersonaScore (c : Customer) (p : PersonaType) : Nat :=
  (if (personaOccupationKeywords p).any (fun k => substrB k (c.occupation.getD "")) then 5 else 0)
  + 2 * (personaGenreKeywords p).countP
      (fun k => substrB k (String.intercalate " " c.interest_genre))
  + 3 * (personaChallengeKeywords p).countP
      (fun k => substrB k (String.intercalate " " c.challenges))

/-- The maximum of the specified scores over the four determinable personas. -/
def maxSpecPersonaScore (c : Customer) : Nat :=
  (personaTableOrder.map (specPersonaScore c)).foldl max 0

/-- Position of a persona in the fixed table order (UNKNOWN sorts last). -/
def personaIdx : PersonaType → Nat
  | .SIDE_WORKER => 0
  | .CHILD_RAISING_MOM => 1
  | .BUSINESS_OWNER => 2
  | .SELF_ACHIEVER => 3
  | .UNKNOWN => 4

lemma specPersonaScore_eq (c : Customer) (p : PersonaType) :
    specPersonaScore c p = personaScore c p := by
  have hocc0 : ∀ q : PersonaType,
      (personaOccupationKeywords q).any (fun k => substrB k "") = false := by
    intro q; cases q <;> decide
  have hgen0 : ∀ q : PersonaType,
      (personaGenreKeywords q).countP (fun k => substrB k "") = 0 := by
    intro q; cases q <;> decide
  have hch0 : ∀ q : PersonaType,
      (personaChallengeKeywords q).countP (fun k => substrB k "") = 0 := by
    intro q; cases q <;> decide
  unfold specPersonaScore personaScore personaScoreOcc personaScoreGenre personaScoreChallenge
  have h1 : (if (personaOccupationKeywords p).any
        (fun k => substrB k (c.occupation.getD "")) then 5 else 0)
      = (if optStrTruthy c.occupation &&
          (personaOccupationKeywords p).any (fun k => substrB k (c.occupation.getD ""))
          then 5 else 0) := by
    cases hoc : c.occupation with
    | none => simp [optStrTruthy, hoc, hocc0 p]
    | some s =>
        by_cases hs : s = ""
        · subst hs
          simp [optStrTruthy, hocc0 p]
        · simp [optStrTruthy, hs]
  have h2 : 2 * (personaGenreKeywords p).countP
        (fun k => substrB k (String.intercalate " " c.interest_genre))
      = (if !c.interest_genre.isEmpty then
          2 * (personaGenreKeywords p).countP
            (fun k => substrB k (String.intercalate " " c.interest_genre))
        else 0) := by
    cases hg : c.interest_genre with
    | nil => simp [hg, String.intercalate, hgen0 p]
    | cons a t => simp [hg]
  have h3 : 3 * (personaChallengeKeywords p).countP
        (fun k => substrB k (String.intercalate " " c.challenges))
      = (if !c.challenges.isEmpty then
          3 * (personaChallengeKeywords p).countP
            (fun k => substrB k (String.intercalate " " c.challenges))
        else 0) := by
    cases hg : c.challenges with
    | nil => simp [hg, String.intercalate, hch0 p]
    | cons a t => simp [hg]
  conv_lhs => rw [h1, h2, h3]

lemma maxSpecPersonaScore_eq (c : Customer) :
    maxSpecPersonaScore c = maxPersonaScore c := by
  unfold maxSpecPersonaScore maxPersonaScore
  simp [personaTableOrder, specPersonaScore_eq]

lemma estimatePersona_spec (c : Customer) :
    (0 < maxPersonaScore c →
      estimatePersona c ∈ personaTableOrder ∧
      personaScore c (estimatePersona c) = maxPersonaScore c ∧
      ∀ p ∈ personaTableOrder, personaScore c p = maxPersonaScore c →
        personaIdx (estimatePersona c) ≤ personaIdx p) ∧
    (maxPersonaScore c = 0 → estimatePersona c = PersonaType.UNKNOWN) := by
  constructor
  · intro hM
    have hMdef : maxPersonaScore c =
        ((((0 : Nat).max (personaScore c PersonaType.SIDE_WORKER)).max
          (personaScore c PersonaType.CHILD_RAISING_MOM)).max
          (personaScore c PersonaType.BUSINESS_OWNER)).max
          (personaScore c PersonaType.SELF_ACHIEVER) := rfl
    unfold estimatePersona
    rw [if_pos hM]
    by_cases h1 : (personaScore c PersonaType.SIDE_WORKER == maxPersonaScore c) = true
    · simp only [personaTableOrder, List.find?, h1]
      refine ⟨by simp [personaTableOrder], by simpa using h1, ?_⟩
      intro p hp hpm
      cases p <;> simp [personaIdx]
    · by_cases h2 : (personaScore c PersonaType.CHILD_RAISING_MOM == maxPersonaScore c) = true
      · simp only [personaTableOrder, List.find?, h1, h2]
        refine ⟨by simp [personaTableOrder], by simpa using h2, ?_⟩
        intro p hp hpm
        have hne1 : personaScore c PersonaType.SIDE_WORKER ≠ maxPersonaScore c := by
          simpa using h1
        cases p
        · exact absurd hpm hne1
        · simp [personaIdx]
        · simp [personaIdx]
        · simp [personaIdx]
        · simp at hp
      · by_cases h3 : (personaScore c PersonaType.BUSINESS_OWNER == maxPersonaScore c) = true
        · simp only [personaTableOrder, List.find?, h1, h2, h3]
          refine ⟨by simp [personaTableOrder], by simpa using h3, ?_⟩
          intro p hp hpm
          have hne1 : personaScore c PersonaType.SIDE_WORKER ≠ maxPersonaScore c := by
            simpa using h1
          have hne2 : personaScore c PersonaType.CHILD_RAISING_MOM ≠ maxPersonaScore c := by
            simpa using h2
          cases p
          · exact absurd hpm hne1
          · exact absurd hpm hne2
          · simp [personaIdx]
          · simp [personaIdx]
          · simp at hp
        · by_cases h4 : (personaScore c PersonaType.SELF_ACHIEVER == maxPersonaScore c) = true
          · simp only [personaTableOrder, List.find?, h1, h2, h3, h4]
            refine ⟨by simp [personaTableOrder], by simpa using h4, ?_⟩
            intro p hp hpm
            have hne1 : personaScore c PersonaType.SIDE_WORKER ≠ maxPersonaScore c := by
              simpa using h1
            have hne2 : personaScore c PersonaType.CHILD_RAISING_MOM ≠ maxPersonaScore c := by
              simpa using h2
            have hne3 : personaScore c PersonaType.BUSINESS_OWNER ≠ maxPersonaScore c := by
              simpa using h3
            cases p
            · exact absurd hpm hne1
            · exact absurd hpm hne2
            · exact absurd hpm hne3
            · simp [personaIdx]
            · simp at hp
          · exfalso
            have hne1 : personaScore c PersonaType.SIDE_WORKER ≠ maxPersonaScore c := by
              simpa using h1
            have hne2 : personaScore c PersonaType.CHILD_RAISING_MOM ≠ maxPersonaScore c := by
              simpa using h2
            have hne3 : personaScore c PersonaType.BUSINESS_OWNER ≠ maxPersonaScore c := by
              simpa using h3
            have hne4 : personaScore c PersonaType.SELF_ACHIEVER ≠ maxPersonaScore c := by
              simpa using h4
            have e4 : maxPersonaScore c =
                ((((0 : Nat).max (personaScore c PersonaType.SIDE_WORKER)).max
                  (personaScore c PersonaType.CHILD_RAISING_MOM)).max
                  (personaScore c PersonaType.BUSINESS_OWNER)).max
                  (personaScore c PersonaType.SELF_ACHIEVER) := hMdef
            rcases max_choice
                ((((0 : Nat).max (personaScore c PersonaType.SIDE_WORKER)).max
                  (personaScore c PersonaType.CHILD_RAISING_MOM)).max
                  (personaScore c PersonaType.BUSINESS_OWNER))
                (personaScore c PersonaType.SELF_ACHIEVER) with h4 | h4
            · have e3 : maxPersonaScore c =
                  (((0 : Nat).max (personaScore c PersonaType.SIDE_WORKER)).max
                    (personaScore c PersonaType.CHILD_RAISING_MOM)).max
                    (personaScore c PersonaType.BUSINESS_OWNER) := by rw [e4]; exact h4
              rcases max_choice
                  (((0 : Nat).max (personaScore c PersonaType.SIDE_WORKER)).max
                    (personaScore c PersonaType.CHILD_RAISING_MOM))
                  (personaScore c PersonaType.BUSINESS_OWNER) with h3 | h3
              · have e2 : maxPersonaScore c =
                    ((0 : Nat).max (personaScore c PersonaType.SIDE_WORKER)).max
                      (personaScore c PersonaType.CHILD_RAISING_MOM) := by rw [e3]; exact h3
                rcases max_choice
                    ((0 : Nat).max (personaScore c PersonaType.SIDE_WORKER))
                    (personaScore c PersonaType.CHILD_RAISING_MOM) with h2 | h2
                · have e1 : maxPersonaScore c =
                      (0 : Nat).max (personaScore c PersonaType.SIDE_WORKER) := by rw [e2]; exact h2
                  rcases max_choice (0 : Nat)
                      (personaScore c PersonaType.SIDE_WORKER) with h1' | h1'
                  · have e0 : maxPersonaScore c = 0 := by rw [e1]; exact h1'
                    omega
                  · exact hne1 (e1.trans h1').symm
                · exact hne2 (e2.trans h2).symm
              · exact hne3 (e3.trans h3).symm
            · exact hne4 (e4.trans h4).symm
  · intro h0
    unfold estimatePersona
    rw [if_neg (by omega)]

lemma analyzeMessage_persona_unknown (m : String) (c : Customer)
    (h : c.persona = PersonaType.UNKNOWN) :
    (analyzeMessage m c).persona = estimatePersona (accreteProfile m c) := by
  have hacc : (accreteProfile m c).persona = PersonaType.UNKNOWN := by
    rw [accreteProfile_persona, h]
  unfold analyzeMessage applyPersona
  split
  · rfl
  · rename_i hcond
    exact absurd hacc hcond

/-- C1: for a profile with undetermined persona, `extract` scores each of the
four determinable personas by the specified formula (+5 once on an occupation
indicator, +2 per keyword in the joined genres, +3 per challenge phrase in the
joined challenges, all on the accreted profile), assigns a persona attaining
the maximum score when that maximum is positive, and leaves the persona
`UNKNOWN` when the maximum is 0. -/
theorem persona_inference_formula (m : String) (c : Customer)
    (h : c.persona = PersonaType.UNKNOWN) :
    (0 < maxSpecPersonaScore (accreteProfile m c) →
      (analyzeMessage m c).persona ∈ personaTableOrder ∧
      specPersonaScore (accreteProfile m c) ((analyzeMessage m c).persona)
        = maxSpecPersonaScore (accreteProfile m c)) ∧
    (maxSpecPersonaScore (accreteProfile m c) = 0 →
      (analyzeMessage m c).persona = PersonaType.UNKNOWN) := by
  rw [analyzeMessage_persona_unknown m c h, maxSpecPersonaScore_eq, specPersonaScore_eq]
  have hspec := estimatePersona_spec (accreteProfile m c)
  constructor
  · intro hpos
    obtain ⟨h1, h2, _⟩ := hspec.1 hpos
    exact ⟨h1, h2⟩
  · exact hspec.2

/-- Concrete profile used by the C1 witness. -/
def inferenceWitnessCustomer : Customer :=
  { user_id := "U1", occupation := some "会社員", challenges := ["時間が無い"] }

/-- Witness for C1: a company-employee profile with a time-shortage challenge
gets a persona attaining the positive maximum score. -/
theorem persona_inference_formula_witness :
    inferenceWitnessCustomer.persona = PersonaType.UNKNOWN ∧
    0 < maxSpecPersonaScore (accreteProfile "" inferenceWitnessCustomer) ∧
    ((analyzeMessage "" inferenceWitnessCustomer).persona ∈ personaTableOrder ∧
      specPersonaScore (accreteProfile "" inferenceWitnessCustomer)
          ((analyzeMessage "" inferenceWitnessCustomer).persona)
        = maxSpecPersonaScore (accreteProfile "" inferenceWitnessCustomer)) :=
  ⟨rfl, by decide,
    (persona_inference_formula "" inferenceWitnessCustomer rfl).1 (by decide)⟩

/-- C10: whenever the maximum persona score is positive (in particular when
two or more personas tie), the estimated persona attains the maximum and has
the least index in the fixed table order SIDE_WORKER, CHILD_RAISING_MOM,
BUSINESS_OWNER, SELF_ACHIEVER among all personas attaining it, so the
tie-break deterministically selects the earliest tied entry. -/
theorem persona_tie_break (c : Customer) (h : 0 < maxPersonaScore c) :
    estimatePersona c ∈ personaTableOrder ∧
    personaScore c (estimatePersona c) = maxPersonaScore c ∧
    ∀ p ∈ personaTableOrder, personaScore c p = maxPersonaScore c →
      personaIdx (estimatePersona c) ≤ personaIdx p :=
  (estimatePersona_spec c).1 h

/-- Concrete profile used by the C10 witness: its occupation string contains
both a SIDE_WORKER indicator and a CHILD_RAISING_MOM indicator, so the two
personas tie at the positive maximum. -/
def tieWitnessCustomer : Customer :=
  { user_id := "U2", occupation := some "会社員主婦" }

/-- Witness for C10 at a profile with a genuine two-way tie. -/
theorem persona_tie_break_witness :
    0 < maxPersonaScore tieWitnessCustomer ∧
    personaScore tieWitnessCustomer PersonaType.SIDE_WORKER
      = personaScore tieWitnessCustomer PersonaType.CHILD_RAISING_MOM ∧
    estimatePersona tieWitnessCustomer ∈ personaTableOrder ∧
    personaScore tieWitnessCustomer (estimatePersona tieWitnessCustomer)
      = maxPersonaScore tieWitnessCustomer := by
  have h := persona_tie_break tieWitnessCustomer (by decide)
  exact ⟨by decide, by decide, h.1, h.2.1⟩

/-- The FAQ score formula exactly as the specification states it (claim-side
definition, to be compared with the code-side `scoreFaq`): +2 on a category
substring match, and per supplied keyword +3 for a question substring match,
+2 for membership in the record keyword list, +1 for an answer substring
match, all accumulating. -/
def specFaqScore (keywords : List String) (category : Option String) (f : FAQ) : Nat :=
  (match category with
   | some cat => if substrB cat f.category then 2 else 0
   | none => 0)
  + 3 * keywords.countP (fun k => substrB k f.question)
  + 2 * keywords.countP (fun k => f.keywords.contains k)
  + keywords.countP (fun k => substrB k f.answer)

/-- C6: for every FAQ record and query with a non-empty supplied category
(or none), the computed score equals the specified sum, with all three
keyword contributions accumulating simultaneously. -/
theorem faq_score_formula (keywords : List String) (category : Option String) (f : FAQ)
    (h : category ≠ some "") :
    scoreFaq keywords category f = specFaqScore keywords category f := by
  have hsum : ∀ ks : List String,
      (ks.map (fun k =>
        (if substrB k f.question then 3 else 0)
        + (if f.keywords.contains k then 2 else 0)
        + (if substrB k f.answer then 1 else 0))).sum
      = 3 * ks.countP (fun k => substrB k f.question)
        + 2 * ks.countP (fun k => f.keywords.contains k)
        + ks.countP (fun k => substrB k f.answer) := by
    intro ks
    induction ks with
    | nil => rfl
    | cons k t ih =>
        simp only [List.map_cons, List.sum_cons, List.countP_cons, ih]
        split_ifs <;> simp_all <;> omega
  cases category with
  | none =>
      unfold scoreFaq specFaqScore
      dsimp only
      rw [hsum]
      omega
  | some cat =>
      have hc0 : cat ≠ "" := fun hcc => h (by rw [hcc])
      have hc : (cat == "") = false := beq_eq_false_iff_ne.mpr hc0
      unfold scoreFaq specFaqScore
      dsimp only
      rw [hsum]
      simp only [hc, Bool.not_false, Bool.true_and]
      omega

/-- Concrete FAQ record used by the C6 witness. -/
def faqWitnessRecord : FAQ :=
  { id := "faq_002", category := "料金・支払い", question := "料金はいくらですか？",
    answer := "半年間のプログラムで、分割払いも可能です。",
    related_personas := ["全て"], keywords := ["料金", "価格", "費用", "いくら", "金額"] }

/-- Witness for C6 at a concrete record and query. -/
theorem faq_score_formula_witness :
    (some "料金" : Option String) ≠ some "" ∧
    scoreFaq ["料金", "分割"] (some "料金") faqWitnessRecord
      = specFaqScore ["料金", "分割"] (some "料金") faqWitnessRecord :=
  ⟨by decide, faq_score_formula ["料金", "分割"] (some "料金") faqWitnessRecord (by decide)⟩

/-- C9: the assembled message list is exactly the system message, the most
recent at-most-10 history messages as a contiguous suffix of the history
(chronological order preserved), and the current user message. -/
theorem history_last_ten (systemPrompt : String) (ctx : ConversationContext)
    (userMessage knowledge : String) :
    ∃ h : List Message,
      buildMessages systemPrompt ctx userMessage knowledge =
        ("system", buildFullSystemPrompt systemPrompt ctx knowledge)
          :: (h.map (fun msg => (msg.role, msg.content)) ++ [("user", userMessage)]) ∧
      h <:+ ctx.messages ∧
      h.length = min 10 ctx.messages.length := by
  refine ⟨pySliceLast 10 ctx.messages, rfl, ?_, ?_⟩
  · exact List.drop_suffix _ _
  · unfold pySliceLast
    rw [List.length_drop]
    omega

/-! ### The profile summary of the context prompt -/

lemma isPre_self_append (a b : List Char) : List.isPrefixOf a (a ++ b) = true := by
  induction a with
  | nil => simp [List.isPrefixOf]
  | cons x xs ih => simp [List.isPrefixOf, ih]

lemma strStarts_self_append (p v : String) : strStarts p (p ++ v) = true := by
  unfold strStarts
  rw [String.data_append]
  exact isPre_self_append _ _

lemma strStarts_append_false (m p v : String)
    (hm : m.data ≠ []) (hp : p.data ≠ [])
    (hhead : m.data.head? ≠ p.data.head?) :
    strStarts m (p ++ v) = false := by
  unfold strStarts
  rw [String.data_append]
  rcases hm' : m.data with _ | ⟨a, as⟩
  · exact absurd hm' hm
  · rcases hp' : p.data with _ | ⟨b, bs⟩
    · exact absurd hp' hp
    · rw [hm', hp'] at hhead
      have hab : a ≠ b := fun hEq => hhead (by simp [hEq])
      rw [List.cons_append]
      simp [List.isPrefixOf, hab]

lemma any_if_seg (q : String → Bool) (b : Bool) (x : String) :
    (if b then [x] else []).any q = (b && q x) := by
  cases b <;> simp

/-- Concrete fresh profile used by the C8 counterexample. -/
def freshCustomer : Customer := { user_id := "U" }

/-- C8 counterexample: on a fresh profile the persona is unset, yet the
profile summary holds only the status line — no persona line and no
"not yet determined" placeholder is rendered, contradicting the claim that
persona is always rendered with a placeholder when unset. -/
theorem profile_summary_counterexample :
    freshCustomer.persona = PersonaType.UNKNOWN ∧
    buildCustomerInfo freshCustomer = ["ステータス: 友だち追加直後"] := by
  exact ⟨rfl, by decide⟩

/-- C8 (amended): the profile summary renders a line for each populated
field and omits absent ones; the persona line appears exactly when the
persona is determined (an unset persona is omitted entirely, with no
placeholder); the status line is always rendered. -/
theorem profile_summary_rendered_fields (c : Customer) :
    ((buildCustomerInfo c).any (strStarts "お名前: ") = optStrTruthy c.display_name) ∧
    ((buildCustomerInfo c).any (strStarts "職業: ") = optStrTruthy c.occupation) ∧
    ((buildCustomerInfo c).any (strStarts "興味ジャンル: ") = !c.interest_genre.isEmpty) ∧
    ((buildCustomerInfo c).any (strStarts "課題: ") = !c.challenges.isEmpty) ∧
    ((buildCustomerInfo c).any (strStarts "目標: ") = optStrTruthy c.goals) ∧
    ((buildCustomerInfo c).any (strStarts "推定ペルソナ: ")
      = decide (c.persona ≠ PersonaType.UNKNOWN)) ∧
    ((buildCustomerInfo c).any (strStarts "ステータス: ") = true) := by
  have hself : ∀ p v : String, strStarts p (p ++ v) = true := strStarts_self_append
  have hne01 : ∀ v, strStarts "お名前: " ("職業: " ++ v) = false := fun v =>
    strStarts_append_false _ _ v (by decide) (by decide) (by decide)
  have hne02 : ∀ v, strStarts "お名前: " ("興味ジャンル: " ++ v) = false := fun v =>
    strStarts_append_false _ _ v (by decide) (by decide) (by decide)
  have hne03 : ∀ v, strStarts "お名前: " ("課題: " ++ v) = false := fun v =>
    strStarts_append_false _ _ v (by decide) (by decide) (by decide)
  have hne04 : ∀ v, strStarts "お名前: " ("目標: " ++ v) = false := fun v =>
    strStarts_append_false _ _ v (by decide) (by decide) (by decide)
  have hne05 : ∀ v, strStarts "お名前: " ("推定ペルソナ: " ++ v) = false := fun v =>
    strStarts_append_false _ _ v (by decide) (by decide) (by decide)
  have hne06 : ∀ v, strStarts "お名前: " ("ステータス: " ++ v) = false := fun v =>
    strStarts_append_false _ _ v (by decide) (by decide) (by decide)
  have hne10 : ∀ v, strStarts "職業: " ("お名前: " ++ v) = false := fun v =>
    strStarts_append_false _ _ v (by decide) (by decide) (by decide)
  have hne12 : ∀ v, strStarts "職業: " ("興味ジャンル: " ++ v) = false := fun v =>
    strStarts_append_false _ _ v (by decide) (by decide) (by decide)
  have hne13 : ∀ v, strStarts "職業: " ("課題: " ++ v) = false := fun v =>
    strStarts_append_false _ _ v (by decide) (by decide) (by decide)
  have hne14 : ∀ v, strStarts "職業: " ("目標: " ++ v) = false := fun v =>
    strStarts_append_false _ _ v (by decide) (by decide) (by decide)
  have hne15 : ∀ v, strStarts "職業: " ("推定ペルソナ: " ++ v) = false := fun v =>
    strStarts_append_false _ _ v (by decide) (by decide) (by decide)
  have hne16 : ∀ v, strStarts "職業: " ("ステータス: " ++ v) = false := fun v =>
    strStarts_append_false _ _ v (by decide) (by decide) (by decide)
  have hne20 : ∀ v, strStarts "興味ジャンル: " ("お名前: " ++ v) = false := fun v =>
    strStarts_append_false _ _ v (by decide) (by decide) (by decide)
  have hne21 : ∀ v, strStarts "興味ジャンル: " ("職業: " ++ v) = false := fun v =>
    strStarts_append_false _ _ v (by decide) (by decide) (by decide)
  have hne23 : ∀ v, strStarts "興味ジャンル: " ("課題: " ++ v) = false := fun v =>
    strStarts_append_false _ _ v (by decide) (by decide) (by decide)
  have hne24 : ∀ v, strStarts "興味ジャンル: " ("目標: " ++ v) = false := fun v =>
    strStarts_append_false _ _ v (by decide) (by decide) (by decide)
  have hne25 : ∀ v, strStarts "興味ジャンル: " ("推定ペルソナ: " ++ v) = false := fun v =>
    strStarts_append_false _ _ v (by decide) (by decide) (by decide)
  have hne26 : ∀ v, strStarts "興味ジャンル: " ("ステータス: " ++ v) = false := fun v =>
    strStarts_append_false _ _ v (by decide) (by decide) (by decide)
  have hne30 : ∀ v, strStarts "課題: " ("お名前: " ++ v) = false := fun v =>
    strStarts_append_false _ _ v (by decide) (by decide) (by decide)
  have hne31 : ∀ v, strStarts "課題: " ("職業: " ++ v) = false := fun v =>
    strStarts_append_false _ _ v (by decide) (by decide) (by decide)
  have hne32 : ∀ v, strStarts "課題: " ("興味ジャンル: " ++ v) = false := fun v =>
    strStarts_append_false _ _ v (by decide) (by decide) (by decide)
  have hne34 : ∀ v, strStarts "課題: " ("目標: " ++ v) = false := fun v =>
    strStarts_append_false _ _ v (by decide) (by decide) (by decide)
  have hne35 : ∀ v, strStarts "課題: " ("推定ペルソナ: " ++ v) = false := fun v =>
    strStarts_append_false _ _ v (by decide) (by decide) (by decide)
  have hne36 : ∀ v, strStarts "課題: " ("ステータス: " ++ v) = false := fun v =>
    strStarts_append_false _ _ v (by decide) (by decide) (by decide)
  have hne40 : ∀ v, strStarts "目標: " ("お名前: " ++ v) = false := fun v =>
    strStarts_append_false _ _ v (by decide) (by decide) (by decide)
  have hne41 : ∀ v, strStarts "目標: " ("職業: " ++ v) = false := fun v =>
    strStarts_append_false _ _ v (by decide) (by decide) (by decide)
  have hne42 : ∀ v, strStarts "目標: " ("興味ジャンル: " ++ v) = false := fun v =>
    strStarts_append_false _ _ v (by decide) (by decide) (by decide)
  have hne43 : ∀ v, strStarts "目標: " ("課題: " ++ v) = false := fun v =>
    strStarts_append_false _ _ v (by decide) (by decide) (by decide)
  have hne45 : ∀ v, strStarts "目標: " ("推定ペルソナ: " ++ v) = false := fun v =>
    strStarts_append_false _ _ v (by decide) (by decide) (by decide)
  have hne46 : ∀ v, strStarts "目標: " ("ステータス: " ++ v) = false := fun v =>
    strStarts_append_false _ _ v (by decide) (by decide) (by decide)
  have hne50 : ∀ v, strStarts "推定ペルソナ: " ("お名前: " ++ v) = false := fun v =>
    strStarts_append_false _ _ v (by decide) (by decide) (by decide)
  have hne51 : ∀ v, strStarts "推定ペルソナ: " ("職業: " ++ v) = false := fun v =>
    strStarts_append_false _ _ v (by decide) (by decide) (by decide)
  have hne52 : ∀ v, strStarts "推定ペルソナ: " ("興味ジャンル: " ++ v) = false := fun v =>
    strStarts_append_false _ _ v (by decide) (by decide) (by decide)
  have hne53 : ∀ v, strStarts "推定ペルソナ: " ("課題: " ++ v) = false := fun v =>
    strStarts_append_false _ _ v (by decide) (by decide) (by decide)
  have hne54 : ∀ v, strStarts "推定ペルソナ: " ("目標: " ++ v) = false := fun v =>
    strStarts_append_false _ _ v (by decide) (by decide) (by decide)
  have hne56 : ∀ v, strStarts "推定ペルソナ: " ("ステータス: " ++ v) = false := fun v =>
    strStarts_append_false _ _ v (by decide) (by decide) (by decide)
  have hne60 : ∀ v, strStarts "ステータス: " ("お名前: " ++ v) = false := fun v =>
    strStarts_append_false _ _ v (by decide) (by decide) (by decide)
  have hne61 : ∀ v, strStarts "ステータス: " ("職業: " ++ v) = false := fun v =>
    strStarts_append_false _ _ v (by decide) (by decide) (by decide)
  have hne62 : ∀ v, strStarts "ステータス: " ("興味ジャンル: " ++ v) = false := fun v =>
    strStarts_append_false _ _ v (by decide) (by decide) (by decide)
  have hne63 : ∀ v, strStarts "ステータス: " ("課題: " ++ v) = false := fun v =>
    strStarts_append_false _ _ v (by decide) (by decide) (by decide)
  have hne64 : ∀ v, strStarts "ステータス: " ("目標: " ++ v) = false := fun v =>
    strStarts_append_false _ _ v (by decide) (by decide) (by decide)
  have hne65 : ∀ v, strStarts "ステータス: " ("推定ペルソナ: " ++ v) = false := fun v =>
    strStarts_append_false _ _ v (by decide) (by decide) (by decide)
  unfold buildCustomerInfo
  refine ⟨?_, ?_, ?_, ?_, ?_, ?_, ?_⟩
  · simp only [List.any_append, any_if_seg, List.any_cons, List.any_nil, hself, hne01, hne02, hne03, hne04, hne05, hne06,
      Bool.and_false, Bool.and_true, Bool.or_false, Bool.false_or]
  · simp only [List.any_append, any_if_seg, List.any_cons, List.any_nil, hself, hne10, hne12, hne13, hne14, hne15, hne16,
      Bool.and_false, Bool.and_true, Bool.or_false, Bool.false_or]
  · simp only [List.any_append, any_if_seg, List.any_cons, List.any_nil, hself, hne20, hne21, hne23, hne24, hne25, hne26,
      Bool.and_false, Bool.and_true, Bool.or_false, Bool.false_or]
  · simp only [List.any_append, any_if_seg, List.any_cons, List.any_nil, hself, hne30, hne31, hne32, hne34, hne35, hne36,
      Bool.and_false, Bool.and_true, Bool.or_false, Bool.false_or]
  · simp only [List.any_append, any_if_seg, List.any_cons, List.any_nil, hself, hne40, hne41, hne42, hne43, hne45, hne46,
      Bool.and_false, Bool.and_true, Bool.or_false, Bool.false_or]
  · simp only [List.any_append, any_if_seg, List.any_cons, List.any_nil, hself, hne50, hne51, hne52, hne53, hne54, hne56,
      Bool.and_false, Bool.and_true, Bool.or_false, Bool.false_or]
    cases c.persona <;> rfl
  · simp only [List.any_append, any_if_seg, List.any_cons, List.any_nil, hself, hne60, hne61, hne62, hne63, hne64, hne65,
      Bool.and_false, Bool.and_true, Bool.or_false, Bool.false_or]
